import Mathlib

/-!
Shallow embedding of the session/token lifecycle and the optimistic
favorites store of the rewear storefront client
(`src/client/src/contexts/CartContext.tsx` — axios client half,
`src/client/src/contexts/FavoritesContext.tsx`,
`src/unnamed/part_009` — the `AuthProvider` using
`access_token`/`refresh_token`/`user` storage keys).

Asynchronous JavaScript is modelled as the deterministic event-loop
interleavings the claims speak about: network outcomes are explicit
parameters (`Except` values), the three durable-storage keys become a
`TokenStore` record, and the interceptor's processing of a batch of 401
failures is a pure function producing an event trace.
-/

namespace Rewear

/-! ## Strings: `String.prototype.includes` on lowercased messages.
Characters are handled as codepoints; `toLowerCase` is modelled on the
ASCII letters, which covers the API's English error messages. -/

/-- Lowercase an ASCII codepoint. -/
def lowerCode (n : Nat) : Nat :=
  if 65 ≤ n ∧ n ≤ 90 then n + 32 else n

/-- `charsHasInit pat s` : `pat` occurs at the start of `s`. -/
def charsHasInit : List Nat → List Nat → Bool
  | [], _ => true
  | _ :: _, [] => false
  | p :: ps, c :: cs => p == c && charsHasInit ps cs

/-- `charsContains s pat` : `pat` occurs somewhere inside `s`. -/
def charsContains : List Nat → List Nat → Bool
  | [], pat => pat.isEmpty
  | c :: cs, pat => charsHasInit pat (c :: cs) || charsContains cs pat

/-- `msg.toLowerCase().includes(pat)` from the favorites error classifiers
(the patterns used are already lowercase). -/
def msgIncludes (msg pat : String) : Bool :=
  charsContains (msg.data.map (fun c => lowerCode c.toNat))
    (pat.data.map (fun c => c.toNat))

instance {ε α : Type} [DecidableEq ε] [DecidableEq α] : DecidableEq (Except ε α)
  | .error a, .error b => decidable_of_iff (a = b) (by simp)
  | .error _, .ok _ => isFalse (by intro h; cases h)
  | .ok _, .error _ => isFalse (by intro h; cases h)
  | .ok a, .ok b => decidable_of_iff (a = b) (by simp)

/-! ## Durable storage (`localStorage` keys used by the session) -/

/-- The three fixed `localStorage` keys of the session:
`access_token`, `refresh_token`, `user` (serialized). -/
structure TokenStore where
  access_token : Option String
  refresh_token : Option String
  user : Option String
deriving DecidableEq, Repr

/-- `clearAuthTokens` (CartContext.tsx lines 113–117): removes the three keys. -/
def clearAuthTokens (s : TokenStore) : TokenStore :=
  { s with access_token := none, refresh_token := none, user := none }

/-! ## Favorites store (`FavoritesContext.tsx`, first document) -/

/-- An HTTP error as the favorites classifiers see it:
`e?.response?.status` (absent on network errors) and
`String(e?.response?.data?.message ?? '')`. -/
structure ApiError where
  status : Option Nat
  message : String
deriving DecidableEq, Repr

/-- `isAlreadyFavoritedError` (FavoritesContext.tsx lines 12–17):
status 400 and lowercased message containing "already" or "favorite". -/
def isAlreadyFavoritedError (e : ApiError) : Bool :=
  e.status == some 400 &&
    (msgIncludes e.message "already" || msgIncludes e.message "favorite")

/-- `isNotFavoritedError` (FavoritesContext.tsx lines 19–24):
status 404 or 400 and lowercased message containing "not" or "favorite". -/
def isNotFavoritedError (e : ApiError) : Bool :=
  (e.status == some 404 || e.status == some 400) &&
    (msgIncludes e.message "not" || msgIncludes e.message "favorite")

/-- The idempotent add-conflict in the specification's own words (§6: a
400 response meaning "already favorited"): the message must actually say
the item is already favorited. Declared only to compare the code's
classifier `isAlreadyFavoritedError` against the spec's notion. -/
def specAlreadyFavoritedConflict (e : ApiError) : Bool :=
  e.status == some 400 && msgIncludes e.message "already favorited"

/-- A catalog item as the favorites store uses it: only `id` matters. -/
structure Item where
  id : Nat
deriving DecidableEq, Repr

/-- `syncIdsFromItems`: the set of ids of a fetched item list. -/
def idsOfItems (items : List Item) : Finset ℕ :=
  items.foldl (fun s it => insert it.id s) ∅

/-- The provider's state: `favoriteItems` list and `favoriteIds` set. -/
structure FavState where
  favoriteItems : List Item
  favoriteIds : Finset ℕ
deriving DecidableEq

/-- `useState` initial values: empty list, empty set. -/
def initialFavState : FavState := { favoriteItems := [], favoriteIds := ∅ }

/-- Network calls the favorites store can issue. -/
inductive NetCall where
  | addFav (id : Nat)
  | removeFav (id : Nat)
  | getAll
deriving DecidableEq, Repr

/-- `refreshFavorites` (lines 61–80): unauthenticated clears state with no
network call; otherwise fetches the authoritative list (`fetchResult` is the
outcome of `api.favorites.getAll()` after `extractItemsArray`), replacing
local state on success and clearing it on any fetch failure. -/
def refreshFavoritesRun (isAuthenticated : Bool) (s : FavState)
    (fetchResult : Except ApiError (List Item)) : FavState × List NetCall :=
  if !isAuthenticated then
    ({ favoriteItems := [], favoriteIds := ∅ }, [])
  else
    match fetchResult with
    | .ok items => ({ favoriteItems := items, favoriteIds := idsOfItems items }, [.getAll])
    | .error _ => ({ favoriteItems := [], favoriteIds := ∅ }, [.getAll])

/-- `addFavorite` (lines 86–110): no-op if unauthenticated; optimistically
inserts the id; on a server error that is not `isAlreadyFavoritedError`,
rolls the insertion back and re-throws; in all authenticated cases finally
reconciles via `refreshFavorites`. `addResult` is the outcome of
`api.favorites.add(id)`, `fetchResult` that of the reconciliation fetch. -/
def addFavoriteRun (isAuthenticated : Bool) (x : Nat) (s : FavState)
    (addResult : Except ApiError Unit)
    (fetchResult : Except ApiError (List Item)) :
    Except ApiError Unit × FavState × List NetCall :=
  if !isAuthenticated then (.ok (), s, [])
  else
    let s1 := { s with favoriteIds := insert x s.favoriteIds }
    match addResult with
    | .ok _ =>
        let (s2, calls) := refreshFavoritesRun isAuthenticated s1 fetchResult
        (.ok (), s2, .addFav x :: calls)
    | .error e =>
        if isAlreadyFavoritedError e then
          let (s2, calls) := refreshFavoritesRun isAuthenticated s1 fetchResult
          (.ok (), s2, .addFav x :: calls)
        else
          let s1' := { s1 with favoriteIds := s1.favoriteIds.erase x }
          let (s2, calls) := refreshFavoritesRun isAuthenticated s1' fetchResult
          (.error e, s2, .addFav x :: calls)

/-- `removeFavorite` (lines 112–137): no-op if unauthenticated; optimistically
removes the id from the set and the item from the displayed list; a server
error that is not `isNotFavoritedError` is re-thrown (with no rollback of the
optimistic removal); always reconciles via `refreshFavorites`. -/
def removeFavoriteRun (isAuthenticated : Bool) (x : Nat) (s : FavState)
    (removeResult : Except ApiError Unit)
    (fetchResult : Except ApiError (List Item)) :
    Except ApiError Unit × FavState × List NetCall :=
  if !isAuthenticated then (.ok (), s, [])
  else
    let s1 : FavState :=
      { favoriteItems := s.favoriteItems.filter (fun it => it.id != x),
        favoriteIds := s.favoriteIds.erase x }
    match removeResult with
    | .ok _ =>
        let (s2, calls) := refreshFavoritesRun isAuthenticated s1 fetchResult
        (.ok (), s2, .removeFav x :: calls)
    | .error e =>
        if isNotFavoritedError e then
          let (s2, calls) := refreshFavoritesRun isAuthenticated s1 fetchResult
          (.ok (), s2, .removeFav x :: calls)
        else
          let (s2, calls) := refreshFavoritesRun isAuthenticated s1 fetchResult
          (.error e, s2, .removeFav x :: calls)

/-- `isFavorite` (line 139): membership in the local id set. -/
def isFavorite (s : FavState) (x : Nat) : Bool :=
  x ∈ s.favoriteIds

/-! ## Auth session (`src/unnamed/part_009`, second `AuthProvider`) -/

/-- In-memory React state of the provider: `user` and `accessToken`.
User payloads are kept as their serialized strings. -/
structure AuthMem where
  user : Option String
  accessToken : Option String
deriving DecidableEq, Repr

/-- Full session state: durable storage plus in-memory provider state. -/
structure AuthState where
  store : TokenStore
  mem : AuthMem
deriving DecidableEq, Repr

/-- Shape of a login/registration response after the
`response.data?.data || response.data` envelope unwrapping. -/
structure AuthResp where
  access_token : Option String
  refresh_token : Option String
  user : Option String
deriving DecidableEq, Repr

/-- The provider's `useState` initializers (part_009 lines 128–138):
`user` from the stored `user` key, `accessToken` from `access_token`. -/
def initialLoad (store : TokenStore) : AuthState :=
  { store := store
    mem := { user := store.user, accessToken := store.access_token } }

/-- `login` (lines 189–208): throws `Invalid login response` unless the
response carries both an access token and a user; otherwise persists the
access token, the rotated refresh token when present, and the user, and sets
both in-memory fields. -/
def login (s : AuthState) (resp : AuthResp) : Except Unit AuthState :=
  match resp.access_token, resp.user with
  | some tok, some u =>
      .ok { store :=
              { access_token := some tok
                refresh_token :=
                  match resp.refresh_token with
                  | some rt => some rt
                  | none => s.store.refresh_token
                user := some u }
            mem := { user := some u, accessToken := some tok } }
  | _, _ => .error ()

/-- `register` (lines 214–233): only acts when the response carries an
access token; persists it (and the refresh token when present); persists and
sets the user only when the response carries one; always sets the in-memory
access token on that path. -/
def registerOp (s : AuthState) (resp : AuthResp) : AuthState :=
  match resp.access_token with
  | none => s
  | some tok =>
      let store1 := { s.store with access_token := some tok }
      let store2 :=
        match resp.refresh_token with
        | some rt => { store1 with refresh_token := some rt }
        | none => store1
      match resp.user with
      | some u =>
          { store := { store2 with user := some u }
            mem := { user := some u, accessToken := some tok } }
      | none =>
          { store := store2
            mem := { s.mem with accessToken := some tok } }

/-- `fetchUser` (lines 152–173): no-op when no access token is stored;
on a successful `/auth/me` carrying a user, sets and persists it; on any
`/auth/me` failure clears the three storage keys and both memory fields.
`meResult` is the outcome of the call after envelope unwrapping. -/
def fetchUser (s : AuthState) (meResult : Except Unit (Option String)) : AuthState :=
  match s.store.access_token with
  | none => s
  | some _ =>
      match meResult with
      | .ok userData =>
          match userData with
          | some u =>
              { store := { s.store with user := some u }
                mem := { s.mem with user := some u } }
          | none => s
      | .error _ =>
          { store := clearAuthTokens s.store
            mem := { user := none, accessToken := none } }

/-- `logout` (lines 235–245): the server call's outcome is swallowed by the
empty `catch`; the `finally` block clears the three storage keys and resets
both in-memory fields. -/
def logout (s : AuthState) (_serverResult : Except Unit Unit) : AuthState :=
  { store := clearAuthTokens s.store
    mem := { user := none, accessToken := none } }

/-- `refreshAuthState` (lines 141–150): re-reads both storage keys into the
in-memory fields. -/
def refreshAuthState (s : AuthState) : AuthState :=
  { s with mem := { accessToken := s.store.access_token, user := s.store.user } }

/-- The spec's session invariant: `currentUser` non-null iff
`accessToken` non-null. -/
def authInvariant (s : AuthState) : Bool :=
  s.mem.user.isSome == s.mem.accessToken.isSome

/-! ## Token-refresh interceptor (`CartContext.tsx`, axios client half) -/

/-- A request as the interceptor sees it: an identifier, the `_retry`
flag, and its `Authorization` header. -/
structure Req where
  id : Nat
  retry : Bool
  auth : Option String
deriving DecidableEq, Repr

/-- Errors in the interceptor's world: an HTTP response error carrying a
status (tagged by the failing request's id, so original errors are
distinguishable values), a failure of the refresh call itself, or the
`Error('No access token in refresh response')` thrown inside the `try`. -/
inductive IErr where
  | http (status : Nat) (rid : Nat)
  | refreshHttp (status : Nat)
  | noToken
deriving DecidableEq, Repr

/-- `error.response?.status`: only response errors carry a status. -/
def errStatus : IErr → Option Nat
  | .http s _ => some s
  | _ => none

/-- Module-level mutable state of the axios client: the `isRefreshing`
flag, the `failedQueue`, and durable storage. -/
structure IState where
  isRefreshing : Bool
  failedQueue : List Req
  store : TokenStore
deriving DecidableEq, Repr

/-- What the response-error interceptor decides to do with one failing
request, before any pending refresh settles. -/
inductive IAction where
  | enqueued
  | lead (leader : Req) (rt : String)
  | rejectOrig
  | passThrough
deriving DecidableEq, Repr

/-- The synchronous prefix of the response-error interceptor
(CartContext.tsx lines 140–166): a 401 on a non-retried request either joins
`failedQueue` when a refresh is in flight, or marks itself retried, raises
`isRefreshing` and becomes the refresh leader; with no stored refresh token
the session is destroyed and the original error propagates; anything else
passes through unchanged. -/
def interceptOnError (st : IState) (req : Req) (e : IErr) : IState × IAction :=
  if errStatus e == some 401 && !req.retry then
    if st.isRefreshing then
      ({ st with failedQueue := st.failedQueue ++ [req] }, .enqueued)
    else
      let leader := { req with retry := true }
      match st.store.refresh_token with
      | none =>
          ({ st with isRefreshing := false, store := clearAuthTokens st.store },
           .rejectOrig)
      | some rt =>
          ({ st with isRefreshing := true }, .lead leader rt)
  else (st, .passThrough)

/-- Shape of the refresh endpoint's response after envelope unwrapping. -/
structure RefreshResp where
  access_token : Option String
  refresh_token : Option String
deriving DecidableEq, Repr

/-- `Bearer` header for a token. -/
def bearer (tok : String) : String := "Bearer " ++ tok

/-- Observable events of a refresh round. `settledOk`/`settledErr` are the
resolutions of queued promises (in `processQueue` order); `replayed` records
a request re-entering `axiosClient` with its `Authorization` header. -/
inductive Ev where
  | refreshCall
  | refreshResolved (tok : String)
  | refreshRejected (e : IErr)
  | settledOk (rid : Nat) (tok : String)
  | settledErr (rid : Nat) (e : IErr)
  | replayed (rid : Nat) (auth : Option String)
deriving DecidableEq, Repr

/-- Settling of the single in-flight refresh (CartContext.tsx lines
168–197). On a response with an access token: persist it (and the rotated
refresh token when present), set the leader's header, `processQueue`
resolves every queued entry with the new token — each queued request is then
replayed with `Bearer` of that token — the leader is replayed, and `finally`
drops `isRefreshing`. A response without an access token throws inside the
`try` and lands in the same `catch` as a failed refresh call: `processQueue`
rejects every queued entry with the refresh error, `clearAuthTokens` runs,
and the refresh error is what the leader's caller receives. -/
def settleRefresh (st : IState) (leader : Req) (outcome : Except IErr RefreshResp) :
    IState × List Ev × Except IErr Req :=
  match outcome with
  | .ok resp =>
      match resp.access_token with
      | none =>
          ({ isRefreshing := false, failedQueue := [],
             store := clearAuthTokens st.store },
           Ev.refreshRejected IErr.noToken ::
             st.failedQueue.map (fun r => Ev.settledErr r.id IErr.noToken),
           .error IErr.noToken)
      | some tok =>
          let store' : TokenStore :=
            { access_token := some tok
              refresh_token :=
                match resp.refresh_token with
                | some nrt => some nrt
                | none => st.store.refresh_token
              user := st.store.user }
          let leader' := { leader with auth := some (bearer tok) }
          ({ isRefreshing := false, failedQueue := [], store := store' },
           Ev.refreshResolved tok ::
             (st.failedQueue.map (fun r => Ev.settledOk r.id tok)
              ++ Ev.replayed leader'.id leader'.auth ::
                 st.failedQueue.map (fun r => Ev.replayed r.id (some (bearer tok)))),
           .ok leader')
  | .error e =>
      ({ isRefreshing := false, failedQueue := [],
         store := clearAuthTokens st.store },
       Ev.refreshRejected e :: st.failedQueue.map (fun r => Ev.settledErr r.id e),
       .error e)

/-- A batch of requests all failing with 401 delivered to the interceptor in
order on the single-threaded event loop, followed by the settling of the
refresh the first eligible request started. Returns the final client state,
the event trace, and the result the leader's caller receives. -/
def runBatch (st0 : IState) (reqs : List Req) (outcome : Except IErr RefreshResp) :
    IState × List Ev × Option (Except IErr Req) :=
  match reqs with
  | [] => (st0, [], none)
  | r0 :: rest =>
      let (st1, act) := interceptOnError st0 r0 (.http 401 r0.id)
      match act with
      | .lead leader _ =>
          let st2 := rest.foldl
            (fun s r => (interceptOnError s r (.http 401 r.id)).1) st1
          let (st3, evs, res) := settleRefresh st2 leader outcome
          (st3, Ev.refreshCall :: evs, some res)
      | _ => (st1, [], none)

/-- Number of token-refresh network calls recorded in a trace. -/
def countRefreshCalls : List Ev → Nat
  | [] => 0
  | Ev.refreshCall :: es => countRefreshCalls es + 1
  | _ :: es => countRefreshCalls es

/-! ## Theorems -/

/-- C10: if the authoritative reconciliation fetch of `refreshFavorites`
fails for any reason while the session is authenticated, the store replaces
the entire local state with empty — both the favorite-id set and the
favorite-items list are cleared — after the single fetch network call. -/
theorem C10_refresh_failure_clears_all (s : FavState) (e : ApiError) :
    refreshFavoritesRun true s (.error e) =
      ({ favoriteItems := [], favoriteIds := ∅ }, [NetCall.getAll]) := rfl

/-- C9: for every outcome of the server logout request, `logout` clears the
three durable-storage keys (`access_token`, `refresh_token`, `user`) and
resets the in-memory user and access token to `none`: the session is
destroyed even when the server call fails. -/
theorem C9_logout_destroys_session (s : AuthState) (r : Except Unit Unit) :
    logout s r =
      { store := { access_token := none, refresh_token := none, user := none }
        mem := { user := none, accessToken := none } } := rfl

/-- C8: with an unauthenticated session the local favorite state starts and
stays empty, so `isFavorite x` is `false`; and `addFavorite x` is a no-op:
it returns success, leaves the state unchanged, and issues no network
call. -/
theorem C8_unauthenticated_noop (x : Nat) (s : FavState)
    (ar : Except ApiError Unit) (fr : Except ApiError (List Item)) :
    addFavoriteRun false x s ar fr = (Except.ok (), s, []) ∧
    isFavorite initialFavState x = false ∧
    isFavorite (refreshFavoritesRun false s fr).1 x = false := by
  refine ⟨rfl, ?_, ?_⟩ <;> simp [isFavorite, initialFavState, refreshFavoritesRun]

/-- C2 counterexample: two requests fail with 401 (ids 7 and 8) while no
refresh is in flight and the refresh call itself fails with a 500. The
session is destroyed and the queued request is rejected with the refresh
error, but the caller of the originally failing request receives the
*refresh* error `IErr.refreshHttp 500`, which is a different value than the
original 401 error `IErr.http 401 7` the claim says is propagated. -/
theorem C2_counterexample :
    runBatch { isRefreshing := false, failedQueue := [],
               store := { access_token := some "a", refresh_token := some "r",
                          user := some "u" } }
        [{ id := 7, retry := false, auth := none },
         { id := 8, retry := false, auth := none }]
        (.error (.refreshHttp 500)) =
      ({ isRefreshing := false, failedQueue := [],
         store := { access_token := none, refresh_token := none, user := none } },
       [Ev.refreshCall, Ev.refreshRejected (.refreshHttp 500),
        Ev.settledErr 8 (.refreshHttp 500)],
       some (.error (.refreshHttp 500)))
    ∧ (Except.error (IErr.refreshHttp 500) : Except IErr Req)
        ≠ Except.error (IErr.http 401 7) := by
  exact ⟨by decide, by decide⟩

/-- C2 amended: when the in-flight refresh settles with an error, the
interceptor rejects every queued entry with the refresh error in queue
order, clears all three session storage keys, clears the refresh-in-progress
flag, and propagates the *refresh* error (not the original 401) to the
caller of the originally failing request. -/
theorem C2_refresh_failure_semantics (st : IState) (leader : Req) (e : IErr) :
    settleRefresh st leader (.error e) =
      ({ isRefreshing := false, failedQueue := [],
         store := { access_token := none, refresh_token := none, user := none } },
       Ev.refreshRejected e :: st.failedQueue.map (fun r => Ev.settledErr r.id e),
       .error e) := rfl

/-- C3 counterexample: a request (id 5, `_retry` unset) failing with 401
while `isRefreshing` is `true` is enqueued exactly as it arrived — the entry
stored in `failedQueue` still has `retry = false`, so it is not marked as
already-retried before being enqueued. -/
theorem C3_counterexample :
    interceptOnError
        { isRefreshing := true, failedQueue := [],
          store := { access_token := some "a", refresh_token := some "r",
                     user := some "u" } }
        { id := 5, retry := false, auth := none } (.http 401 5) =
      ({ isRefreshing := true,
         failedQueue := [{ id := 5, retry := false, auth := none }],
         store := { access_token := some "a", refresh_token := some "r",
                    user := some "u" } },
       .enqueued)
    ∧ ({ id := 5, retry := false, auth := none } : Req).retry = false := by
  exact ⟨by decide, rfl⟩

/-- C3 amended: only the request that initiates the refresh is marked
already-retried (before the refresh call); a request enqueued while a
refresh is pending is stored unmarked; and a 401 on an already-retried
request passes through unchanged, starting no refresh. -/
theorem C3_amended_retry_marking :
    (∀ st r rt, st.isRefreshing = false → r.retry = false →
        st.store.refresh_token = some rt →
        interceptOnError st r (.http 401 r.id) =
          ({ st with isRefreshing := true }, .lead { r with retry := true } rt)) ∧
    (∀ st r, st.isRefreshing = true → r.retry = false →
        interceptOnError st r (.http 401 r.id) =
          ({ st with failedQueue := st.failedQueue ++ [r] }, .enqueued)) ∧
    (∀ st r s n, r.retry = true →
        interceptOnError st r (.http s n) = (st, .passThrough)) := by
  refine ⟨?_, ?_, ?_⟩
  · intro st r rt h0 h1 h2
    simp [interceptOnError, errStatus, h0, h1, h2]
  · intro st r h0 h1
    simp [interceptOnError, errStatus, h0, h1]
  · intro st r s n h
    simp [interceptOnError, errStatus, h]

/-- Witness for C3 amended: each branch at a concrete input. -/
theorem C3_amended_retry_marking_witness :
    interceptOnError
        { isRefreshing := false, failedQueue := [],
          store := { access_token := none, refresh_token := some "r", user := none } }
        { id := 1, retry := false, auth := none } (.http 401 1) =
      ({ isRefreshing := true, failedQueue := [],
         store := { access_token := none, refresh_token := some "r", user := none } },
       .lead { id := 1, retry := true, auth := none } "r")
    ∧ interceptOnError
        { isRefreshing := true, failedQueue := [],
          store := { access_token := none, refresh_token := some "r", user := none } }
        { id := 2, retry := false, auth := none } (.http 401 2) =
      ({ isRefreshing := true,
         failedQueue := [{ id := 2, retry := false, auth := none }],
         store := { access_token := none, refresh_token := some "r", user := none } },
       .enqueued)
    ∧ interceptOnError
        { isRefreshing := false, failedQueue := [],
          store := { access_token := none, refresh_token := some "r", user := none } }
        { id := 3, retry := true, auth := none } (.http 401 3) =
      ({ isRefreshing := false, failedQueue := [],
         store := { access_token := none, refresh_token := some "r", user := none } },
       .passThrough) := by
  refine ⟨C3_amended_retry_marking.1 _ _ _ rfl rfl rfl,
          C3_amended_retry_marking.2.1 _ _ rfl rfl,
          C3_amended_retry_marking.2.2 _ _ 401 3 rfl⟩

/-- C4 counterexample: from an empty (invariant-satisfying) session, a
`register` call whose server response carries an access token but no user —
a shape the code explicitly handles — leaves `accessToken` set while
`currentUser` is still `null`, violating the claimed invariant. -/
theorem C4_counterexample :
    authInvariant (initialLoad { access_token := none, refresh_token := none,
                                 user := none }) = true
    ∧ authInvariant
        (registerOp
          (initialLoad { access_token := none, refresh_token := none, user := none })
          { access_token := some "t", refresh_token := none, user := none }) = false := by
  exact ⟨rfl, rfl⟩

/-- C4 amended: `login` and `logout` always establish the invariant
(`currentUser` non-null iff `accessToken` non-null); `register` preserves it
only when the response carries a user whenever it carries an access token;
`fetchUser` preserves it when the in-memory token mirrors the stored one;
the initial load and `refreshAuthState` establish it exactly when the stored
`user` and `access_token` keys are jointly present or jointly absent. -/
theorem C4_amended_invariant :
    (∀ s resp s', login s resp = Except.ok s' → authInvariant s' = true) ∧
    (∀ s r, authInvariant (logout s r) = true) ∧
    (∀ s resp, authInvariant s = true →
        (resp.access_token.isSome = true → resp.user.isSome = true) →
        authInvariant (registerOp s resp) = true) ∧
    (∀ s mr, authInvariant s = true →
        s.mem.accessToken = s.store.access_token →
        authInvariant (fetchUser s mr) = true) ∧
    (∀ st, st.user.isSome = st.access_token.isSome →
        authInvariant (initialLoad st) = true) ∧
    (∀ s, s.store.user.isSome = s.store.access_token.isSome →
        authInvariant (refreshAuthState s) = true) := by
  refine ⟨?_, ?_, ?_, ?_, ?_, ?_⟩
  · intro s resp s' h
    cases hat : resp.access_token with
    | none => simp [login, hat] at h
    | some tok =>
        cases hu : resp.user with
        | none => simp [login, hat, hu] at h
        | some u =>
            simp [login, hat, hu] at h
            subst h
            rfl
  · intro s r
    rfl
  · intro s resp h1 h2
    cases hat : resp.access_token with
    | none => simpa [registerOp, hat] using h1
    | some tok =>
        have hu' : resp.user.isSome = true := h2 (by simp [hat])
        cases hu : resp.user with
        | none => simp [hu] at hu'
        | some u => simp [registerOp, hat, hu, authInvariant]
  · intro s mr h1 h2
    cases hat : s.store.access_token with
    | none => simpa [fetchUser, hat] using h1
    | some tok =>
        cases mr with
        | error _ => simp [fetchUser, hat, authInvariant]
        | ok ud =>
            cases ud with
            | none => simpa [fetchUser, hat] using h1
            | some u =>
                simp [fetchUser, hat, authInvariant, h2, hat]
  · intro st h
    simp [authInvariant, initialLoad, h]
  · intro s h
    simp [authInvariant, refreshAuthState, h]

/-- Witness for C4 amended: every conjunct at a concrete input. -/
theorem C4_amended_invariant_witness :
    (login (initialLoad { access_token := none, refresh_token := none, user := none })
        { access_token := some "t", refresh_token := some "r", user := some "u" } =
      Except.ok { store := { access_token := some "t", refresh_token := some "r",
                             user := some "u" }
                  mem := { user := some "u", accessToken := some "t" } }
      ∧ authInvariant { store := { access_token := some "t", refresh_token := some "r",
                                   user := some "u" }
                        mem := { user := some "u", accessToken := some "t" } } = true) ∧
    authInvariant (logout
        (initialLoad { access_token := some "t", refresh_token := none,
                       user := some "u" }) (.error ())) = true ∧
    authInvariant (registerOp
        (initialLoad { access_token := none, refresh_token := none, user := none })
        { access_token := some "t", refresh_token := some "r", user := some "u" }) = true ∧
    authInvariant (fetchUser
        (initialLoad { access_token := some "t", refresh_token := some "r",
                       user := some "u" }) (.ok (some "v"))) = true ∧
    authInvariant (initialLoad { access_token := some "t", refresh_token := some "r",
                                 user := some "u" }) = true ∧
    authInvariant (refreshAuthState
        (initialLoad { access_token := none, refresh_token := none,
                       user := none })) = true := by
  refine ⟨⟨rfl, C4_amended_invariant.1
            (initialLoad { access_token := none, refresh_token := none, user := none })
            { access_token := some "t", refresh_token := some "r", user := some "u" }
            _ rfl⟩,
          C4_amended_invariant.2.1 _ _,
          C4_amended_invariant.2.2.1 _ _ (by decide) (by decide),
          C4_amended_invariant.2.2.2.1 _ _ (by decide) (by decide),
          C4_amended_invariant.2.2.2.2.1 _ (by decide),
          C4_amended_invariant.2.2.2.2.2 _ (by decide)⟩

/-- C5: when the server answers `addFavorite x` with any failure that the
client does not classify as an already-favorited conflict, the optimistic
insertion of `x` is rolled back: the error is re-thrown to the caller and
the final local favorite set does not contain `x` — whether the closing
reconciliation fetch succeeds with a server list not containing `x`, or
fails (clearing the local state). -/
theorem C5_rollback_and_rethrow (x : Nat) (s : FavState) (e : ApiError)
    (L : List Item)
    (h1 : isAlreadyFavoritedError e = false)
    (h2 : x ∉ idsOfItems L) :
    (addFavoriteRun true x s (.error e) (.ok L)).1 = .error e ∧
    isFavorite (addFavoriteRun true x s (.error e) (.ok L)).2.1 x = false ∧
    ∀ e', (addFavoriteRun true x s (.error e) (.error e')).1 = .error e ∧
          isFavorite (addFavoriteRun true x s (.error e) (.error e')).2.1 x = false := by
  refine ⟨?_, ?_, fun e' => ⟨?_, ?_⟩⟩ <;>
    simp [addFavoriteRun, refreshFavoritesRun, isFavorite, h1, h2]

/-- Witness for C5: an unrelated 500 with server list `[1, 2]` and `x = 5`. -/
theorem C5_rollback_and_rethrow_witness :
    (addFavoriteRun true 5 { favoriteItems := [], favoriteIds := ∅ }
        (.error { status := some 500, message := "server error" })
        (.ok [{ id := 1 }, { id := 2 }])).1 =
      .error { status := some 500, message := "server error" } ∧
    isFavorite (addFavoriteRun true 5 { favoriteItems := [], favoriteIds := ∅ }
        (.error { status := some 500, message := "server error" })
        (.ok [{ id := 1 }, { id := 2 }])).2.1 5 = false ∧
    ∀ e', (addFavoriteRun true 5 { favoriteItems := [], favoriteIds := ∅ }
        (.error { status := some 500, message := "server error" })
        (.error e')).1 =
          .error { status := some 500, message := "server error" } ∧
      isFavorite (addFavoriteRun true 5 { favoriteItems := [], favoriteIds := ∅ }
        (.error { status := some 500, message := "server error" })
        (.error e')).2.1 5 = false := by
  exact C5_rollback_and_rethrow 5 _ _ _ (by decide) (by decide)

/-- C6: when the server answers `addFavorite x` with a conflict the client
classifies as already-favorited, the call is treated as success: no error
is thrown to the caller and, after the reconciliation fetch returns the
authoritative list (which contains `x`, as the item is already favorited
server-side), the final local favorite set contains `x`. -/
theorem C6_conflict_is_success (x : Nat) (s : FavState) (e : ApiError)
    (L : List Item)
    (h1 : isAlreadyFavoritedError e = true)
    (h2 : x ∈ idsOfItems L) :
    (addFavoriteRun true x s (.error e) (.ok L)).1 = Except.ok () ∧
    isFavorite (addFavoriteRun true x s (.error e) (.ok L)).2.1 x = true := by
  refine ⟨?_, ?_⟩ <;>
    simp [addFavoriteRun, refreshFavoritesRun, isFavorite, h1, h2]

/-- Witness for C6: a 400 "Already in favorites" with `x = 3` on the
server's list. -/
theorem C6_conflict_is_success_witness :
    (addFavoriteRun true 3 { favoriteItems := [], favoriteIds := ∅ }
        (.error { status := some 400, message := "Already in favorites" })
        (.ok [{ id := 3 }])).1 = Except.ok () ∧
    isFavorite (addFavoriteRun true 3 { favoriteItems := [], favoriteIds := ∅ }
        (.error { status := some 400, message := "Already in favorites" })
        (.ok [{ id := 3 }])).2.1 3 = true := by
  exact C6_conflict_is_success 3 _ _ _ (by decide) (by decide)

/-- C7 counterexample: the error `{status := 400, message := "favorite limit
exceeded"}` does not say the item is already favorited (the spec-worded
conflict predicate rejects it), yet the code's substring classifier accepts
it, so `addFavorite` swallows it: the call reports success instead of
re-throwing this genuine error. -/
theorem C7_counterexample :
    specAlreadyFavoritedConflict
        { status := some 400, message := "favorite limit exceeded" } = false ∧
    isAlreadyFavoritedError
        { status := some 400, message := "favorite limit exceeded" } = true ∧
    (addFavoriteRun true 5 { favoriteItems := [], favoriteIds := ∅ }
        (.error { status := some 400, message := "favorite limit exceeded" })
        (.ok [])).1 = Except.ok () := by
  exact ⟨by decide, by decide, by decide⟩

/-- C7 amended: the favorites store suppresses exactly the errors matched by
its substring classifiers — `addFavorite` re-throws `e` iff
`isAlreadyFavoritedError e` is false (status 400 and message containing
"already" or "favorite"), `removeFavorite` re-throws iff
`isNotFavoritedError e` is false (status 404/400 and message containing
"not" or "favorite") — so errors merely mentioning those substrings are
also swallowed. -/
theorem C7_amended_suppression_exact (x : Nat) (s : FavState) (e : ApiError)
    (fr : Except ApiError (List Item)) :
    ((addFavoriteRun true x s (.error e) fr).1 = .error e ↔
      isAlreadyFavoritedError e = false) ∧
    ((removeFavoriteRun true x s (.error e) fr).1 = .error e ↔
      isNotFavoritedError e = false) := by
  cases fr <;>
    constructor <;>
    · cases h : isAlreadyFavoritedError e <;>
        cases h' : isNotFavoritedError e <;>
        simp [addFavoriteRun, removeFavoriteRun, refreshFavoritesRun, h, h']

/-- Requests failing with 401 while a refresh is in flight are appended to
`failedQueue` in arrival order; nothing else in the client state changes. -/
theorem foldl_enqueue_during_refresh (rs : List Req) (st : IState)
    (hR : st.isRefreshing = true) (h : ∀ r ∈ rs, r.retry = false) :
    rs.foldl (fun s r => (interceptOnError s r (.http 401 r.id)).1) st
      = { st with failedQueue := st.failedQueue ++ rs } := by
  induction rs generalizing st with
  | nil => simp
  | cons r rs ih =>
      have hr : r.retry = false := h r (List.mem_cons_self r rs)
      have step : (interceptOnError st r (.http 401 r.id)).1
          = { st with failedQueue := st.failedQueue ++ [r] } := by
        simp [interceptOnError, errStatus, hr, hR]
      rw [List.foldl_cons, step,
          ih { st with failedQueue := st.failedQueue ++ [r] } hR
            (fun r' hr' => h r' (List.mem_cons_of_mem r hr'))]
      simp

theorem countRefreshCalls_cons_call (es : List Ev) :
    countRefreshCalls (Ev.refreshCall :: es) = countRefreshCalls es + 1 := rfl

theorem countRefreshCalls_cons_resolved (tok : String) (es : List Ev) :
    countRefreshCalls (Ev.refreshResolved tok :: es) = countRefreshCalls es := rfl

theorem countRefreshCalls_cons_replayed (rid : Nat) (a : Option String)
    (es : List Ev) :
    countRefreshCalls (Ev.replayed rid a :: es) = countRefreshCalls es := rfl

theorem countRefreshCalls_append (l1 l2 : List Ev) :
    countRefreshCalls (l1 ++ l2) = countRefreshCalls l1 + countRefreshCalls l2 := by
  induction l1 with
  | nil => simp [countRefreshCalls]
  | cons e es ih => cases e <;> simp [countRefreshCalls, ih] <;> omega

theorem countRefreshCalls_map_settledOk (rs : List Req) (tok : String) :
    countRefreshCalls (rs.map fun r => Ev.settledOk r.id tok) = 0 := by
  induction rs with
  | nil => rfl
  | cons r rs ih => simpa [countRefreshCalls] using ih

theorem countRefreshCalls_map_replayed (rs : List Req) (a : Option String) :
    countRefreshCalls (rs.map fun r => Ev.replayed r.id a) = 0 := by
  induction rs with
  | nil => rfl
  | cons r rs ih => simpa [countRefreshCalls] using ih

/-- C1: a batch of `N ≥ 1` requests (none yet retried) all failing with 401
while no refresh is in flight and a refresh token is stored, with the
refresh succeeding with token `tok`: the trace contains exactly one
`refreshCall`; the other `N - 1` requests are enqueued and each queued
entry is settled strictly after `refreshResolved`, in the order enqueued;
and every request — the leader and each queued one — is replayed with
`Authorization` header `Bearer tok`, the token produced by that single
refresh. -/
theorem C1_single_refresh_replays_queue
    (r0 : Req) (rest : List Req) (at0 u0 rto : Option String) (rt tok : String)
    (h0 : r0.retry = false) (h1 : ∀ r ∈ rest, r.retry = false) :
    runBatch
        { isRefreshing := false, failedQueue := [],
          store := { access_token := at0, refresh_token := some rt, user := u0 } }
        (r0 :: rest) (.ok { access_token := some tok, refresh_token := rto }) =
      ({ isRefreshing := false, failedQueue := [],
         store := { access_token := some tok
                    refresh_token := match rto with
                      | some nrt => some nrt
                      | none => some rt
                    user := u0 } },
       Ev.refreshCall :: Ev.refreshResolved tok ::
         (rest.map (fun r => Ev.settledOk r.id tok)
          ++ Ev.replayed r0.id (some (bearer tok)) ::
             rest.map (fun r => Ev.replayed r.id (some (bearer tok)))),
       some (.ok { r0 with retry := true, auth := some (bearer tok) }))
    ∧ countRefreshCalls
        (runBatch
          { isRefreshing := false, failedQueue := [],
            store := { access_token := at0, refresh_token := some rt, user := u0 } }
          (r0 :: rest)
          (.ok { access_token := some tok, refresh_token := rto })).2.1 = 1 := by
  have step0 : interceptOnError
      { isRefreshing := false, failedQueue := [],
        store := { access_token := at0, refresh_token := some rt, user := u0 } }
      r0 (.http 401 r0.id)
      = ({ isRefreshing := true, failedQueue := [],
           store := { access_token := at0, refresh_token := some rt, user := u0 } },
         .lead { r0 with retry := true } rt) := by
    simp [interceptOnError, errStatus, h0]
  have hfold := foldl_enqueue_during_refresh rest
      { isRefreshing := true, failedQueue := [],
        store := { access_token := at0, refresh_token := some rt, user := u0 } }
      rfl h1
  have hmain : runBatch
      { isRefreshing := false, failedQueue := [],
        store := { access_token := at0, refresh_token := some rt, user := u0 } }
      (r0 :: rest) (.ok { access_token := some tok, refresh_token := rto }) =
      ({ isRefreshing := false, failedQueue := [],
         store := { access_token := some tok
                    refresh_token := match rto with
                      | some nrt => some nrt
                      | none => some rt
                    user := u0 } },
       Ev.refreshCall :: Ev.refreshResolved tok ::
         (rest.map (fun r => Ev.settledOk r.id tok)
          ++ Ev.replayed r0.id (some (bearer tok)) ::
             rest.map (fun r => Ev.replayed r.id (some (bearer tok)))),
       some (.ok { r0 with retry := true, auth := some (bearer tok) })) := by
    rw [runBatch, step0]
    simp only [List.nil_append] at hfold ⊢
    rw [hfold]
    simp [settleRefresh]
  refine ⟨hmain, ?_⟩
  rw [hmain]
  simp [countRefreshCalls_cons_call, countRefreshCalls_cons_resolved,
        countRefreshCalls_append, countRefreshCalls_map_settledOk,
        countRefreshCalls_cons_replayed, countRefreshCalls_map_replayed]

/-- Witness for C1: three concurrent 401s (ids 1, 2, 3), refresh succeeds
with token `T` and rotated refresh token `R`. -/
theorem C1_single_refresh_replays_queue_witness :
    runBatch
        { isRefreshing := false, failedQueue := [],
          store := { access_token := some "a", refresh_token := some "r",
                     user := some "u" } }
        [{ id := 1, retry := false, auth := none },
         { id := 2, retry := false, auth := none },
         { id := 3, retry := false, auth := none }]
        (.ok { access_token := some "T", refresh_token := some "R" }) =
      ({ isRefreshing := false, failedQueue := [],
         store := { access_token := some "T", refresh_token := some "R",
                    user := some "u" } },
       [Ev.refreshCall, Ev.refreshResolved "T",
        Ev.settledOk 2 "T", Ev.settledOk 3 "T",
        Ev.replayed 1 (some (bearer "T")), Ev.replayed 2 (some (bearer "T")),
        Ev.replayed 3 (some (bearer "T"))],
       some (.ok { id := 1, retry := true, auth := some (bearer "T") }))
    ∧ countRefreshCalls
        (runBatch
          { isRefreshing := false, failedQueue := [],
            store := { access_token := some "a", refresh_token := some "r",
                       user := some "u" } }
          [{ id := 1, retry := false, auth := none },
           { id := 2, retry := false, auth := none },
           { id := 3, retry := false, auth := none }]
          (.ok { access_token := some "T", refresh_token := some "R" })).2.1 = 1 := by
  have h := C1_single_refresh_replays_queue
      { id := 1, retry := false, auth := none }
      [{ id := 2, retry := false, auth := none },
       { id := 3, retry := false, auth := none }]
      (some "a") (some "u") (some "R") "r" "T" rfl (by decide)
  simpa using h

end Rewear
